import Mathlib

/-!
Shallow embedding of `src/spotify_extractor.py` (class `SpotifyExtractor`).

The external spotipy client is modelled as a record of functions returning
`Except String _`: `Except.error e` stands for the underlying call raising an
exception with message `e`, `Except.ok r` for a successful structured response.
Only the fields of the JSON responses that the script actually reads are
modelled (`items`, `track`, `id`, `name`, `artists`).  The `print` diagnostics
are side effects outside every contract and are not modelled.
-/

namespace SpotifyPort

/-- An artist object as returned by the service; the script reads only
`name` (and top-artists responses are otherwise unused). -/
structure ArtistObj where
  id : String
  name : String
deriving DecidableEq

/-- A track object: the script reads `id`, `name` and `artists`. -/
structure TrackObj where
  id : String
  name : String
  artists : List ArtistObj
deriving DecidableEq

/-- An item wrapping a track, as in recently-played events and saved-track
entries, where the script reads `item.track.id`. -/
structure TrackWrap where
  track : TrackObj
deriving DecidableEq

/-- A response payload with an `items` sequence, the only key the script
reads from the retrieval responses. -/
structure Payload (α : Type) where
  items : List α
deriving DecidableEq

/-- An audio-feature record; keyed by track identifier. -/
structure AudioFeature where
  id : String
deriving DecidableEq

/-- The underlying spotipy client (`self.sp`): one function per remote call
the script issues.  `Except.error` models the call raising; the
`audio_features` response is a list whose entries may be `none` (JSON null)
for unresolvable identifiers. -/
structure SpClient where
  current_user_recently_played : Nat → Except String (Payload TrackWrap)
  current_user_top_tracks : String → Nat → Except String (Payload TrackObj)
  current_user_top_artists : String → Nat → Except String (Payload ArtistObj)
  current_user_saved_tracks : Nat → Except String (Payload TrackWrap)
  audio_features : List String → Except String (List (Option AudioFeature))

/-- Whether an `Except` value is a success. -/
def exceptOk : Except ε α → Bool
  | .ok _ => true
  | .error _ => false

/-- `get_recently_played` (source lines 31-39): try the client call, return
the payload on success and `None` on any exception.  The Python default
`limit=50` is passed explicitly by callers here. -/
def get_recently_played (sp : SpClient) (limit : Nat) : Option (Payload TrackWrap) :=
  match sp.current_user_recently_played limit with
  | .ok results => some results
  | .error _ => none

/-- `get_top_tracks` (lines 41-51): same try/except shape, parameterised by
`time_range`. -/
def get_top_tracks (sp : SpClient) (time_range : String) (limit : Nat) :
    Option (Payload TrackObj) :=
  match sp.current_user_top_tracks time_range limit with
  | .ok results => some results
  | .error _ => none

/-- `get_top_artists` (lines 53-61). -/
def get_top_artists (sp : SpClient) (time_range : String) (limit : Nat) :
    Option (Payload ArtistObj) :=
  match sp.current_user_top_artists time_range limit with
  | .ok results => some results
  | .error _ => none

/-- `get_saved_tracks` (lines 79-87). -/
def get_saved_tracks (sp : SpClient) (limit : Nat) : Option (Payload TrackWrap) :=
  match sp.current_user_saved_tracks limit with
  | .ok results => some results
  | .error _ => none

/-- Number of loop iterations of `for i in range(0, len(track_ids), 100)`:
the ceiling of `n / 100`. -/
def num_chunks (n : Nat) : Nat := (n + 99) / 100

/-- The consecutive batches `track_ids[i:i+100]` for `i = 0, 100, 200, ...`
(line 67-68): batch `k` is `take 100 (drop (100 * k) l)`. -/
def chunks100 (l : List α) : List (List α) :=
  (List.range (num_chunks l.length)).map (fun k => (l.drop (100 * k)).take 100)

/-- The records a single successful batch call contributes: the response with
`None` entries filtered out (line 70).  On a raising call it contributes
nothing (the exception aborts the loop; see `feature_loop`). -/
def batchRecords (sp : SpClient) (batch : List String) : List AudioFeature :=
  match sp.audio_features batch with
  | .ok bf => bf.filterMap id
  | .error _ => []

/-- The body of `get_audio_features`: issue the batches in order, stopping at
the first raising call.  Returns the list of batches actually issued to the
client together with either the accumulated filtered records or the
exception that escaped the loop. -/
def feature_loop (sp : SpClient) :
    List (List String) → List (List String) × Except String (List AudioFeature)
  | [] => ([], .ok [])
  | b :: bs =>
    match sp.audio_features b with
    | .error e => ([b], .error e)
    | .ok bf =>
      let rest := feature_loop sp bs
      (b :: rest.1,
       match rest.2 with
       | .error e => .error e
       | .ok fs => .ok (bf.filterMap id ++ fs))

/-- `get_audio_features` (lines 63-77): chunk the input by 100, issue one
client call per chunk, concatenate the non-null records; if any call raises,
the surrounding `except` returns the empty list instead. -/
def get_audio_features (sp : SpClient) (track_ids : List String) : List AudioFeature :=
  match (feature_loop sp (chunks100 track_ids)).2 with
  | .ok features => features
  | .error _ => []

/-- The batches `get_audio_features` actually sends to the client, in order. -/
def audio_feature_calls (sp : SpClient) (track_ids : List String) : List (List String) :=
  (feature_loop sp (chunks100 track_ids)).1

/-- The dictionary assembled by `extract_all_data` (lines 89-133): one slot
per category key; a `none` slot is the `None` stored for a failed retrieval. -/
structure ExtractedData where
  recently_played : Option (Payload TrackWrap)
  top_tracks_short : Option (Payload TrackObj)
  top_tracks_medium : Option (Payload TrackObj)
  top_tracks_long : Option (Payload TrackObj)
  top_artists_short : Option (Payload ArtistObj)
  top_artists_medium : Option (Payload ArtistObj)
  top_artists_long : Option (Payload ArtistObj)
  saved_tracks : Option (Payload TrackWrap)
  audio_features : List AudioFeature
deriving DecidableEq

/-- `track_ids.add(x)` on the working set, modelled as a duplicate-free list:
a Python `set` holds each element once and its iteration order is
unspecified, so only membership and size of the result are contractual. -/
def addId (s : List String) (x : String) : List String :=
  if x ∈ s then s else s ++ [x]

/-- Lines 111-127: build the track-identifier set by scanning recently-played
(`item.track.id`), the three top-tracks results (`item.id`) and saved tracks
(`item.track.id`), skipping each result that is `None`. -/
def collect_track_ids (rp : Option (Payload TrackWrap))
    (tts ttm ttl : Option (Payload TrackObj))
    (st : Option (Payload TrackWrap)) : List String :=
  let s : List String := []
  let s := match rp with
    | some r => r.items.foldl (fun acc item => addId acc item.track.id) s
    | none => s
  let s := match tts with
    | some r => r.items.foldl (fun acc item => addId acc item.id) s
    | none => s
  let s := match ttm with
    | some r => r.items.foldl (fun acc item => addId acc item.id) s
    | none => s
  let s := match ttl with
    | some r => r.items.foldl (fun acc item => addId acc item.id) s
    | none => s
  let s := match st with
    | some r => r.items.foldl (fun acc item => addId acc item.track.id) s
    | none => s
  s

/-- `extract_all_data` (lines 89-133): the eight retrieval calls (with the
Python default `limit=50`), the identifier collection, and the final
audio-feature lookup over the collected set. -/
def extract_all_data (sp : SpClient) : ExtractedData :=
  let rp := get_recently_played sp 50
  let tts := get_top_tracks sp "short_term" 50
  let ttm := get_top_tracks sp "medium_term" 50
  let ttl := get_top_tracks sp "long_term" 50
  let tas := get_top_artists sp "short_term" 50
  let tam := get_top_artists sp "medium_term" 50
  let tal := get_top_artists sp "long_term" 50
  let st := get_saved_tracks sp 50
  let track_ids := collect_track_ids rp tts ttm ttl st
  { recently_played := rp
    top_tracks_short := tts
    top_tracks_medium := ttm
    top_tracks_long := ttl
    top_artists_short := tas
    top_artists_medium := tam
    top_artists_long := tal
    saved_tracks := st
    audio_features := get_audio_features sp track_ids }

/-- The track-identifier set a run of `extract_all_data` builds and passes to
`get_audio_features`. -/
def extract_track_ids (sp : SpClient) : List String :=
  collect_track_ids (get_recently_played sp 50)
    (get_top_tracks sp "short_term" 50)
    (get_top_tracks sp "medium_term" 50)
    (get_top_tracks sp "long_term" 50)
    (get_saved_tracks sp 50)

/-- Identifiers contributed by an optional recently-played or saved-tracks
result (`item.track.id` per item; an absent result contributes nothing). -/
def wrapIds : Option (Payload TrackWrap) → List String
  | some r => r.items.map (fun item => item.track.id)
  | none => []

/-- Identifiers contributed by an optional top-tracks result (`item.id`). -/
def topIds : Option (Payload TrackObj) → List String
  | some r => r.items.map (fun item => item.id)
  | none => []

/-- Item count of an optional retrieval result (`0` when absent). -/
def itemCount : Option (Payload α) → Nat
  | some r => r.items.length
  | none => 0

/-- All identifiers contributed to the working set, in scan order and with
multiplicity, across the five contributing retrieval results. -/
def contributed_ids (sp : SpClient) : List String :=
  wrapIds (get_recently_played sp 50) ++
  topIds (get_top_tracks sp "short_term" 50) ++
  topIds (get_top_tracks sp "medium_term" 50) ++
  topIds (get_top_tracks sp "long_term" 50) ++
  wrapIds (get_saved_tracks sp 50)

/-- The eight retrieval calls `extract_all_data` issues, by category key. -/
inductive Slot where
  | rp | tts | ttm | ttl | tas | tam | tal | st
deriving DecidableEq, Fintype

/-- Whether the underlying client call backing a given slot succeeds, at the
exact arguments `extract_all_data` uses. -/
def slot_call_ok (sp : SpClient) : Slot → Bool
  | .rp => exceptOk (sp.current_user_recently_played 50)
  | .tts => exceptOk (sp.current_user_top_tracks "short_term" 50)
  | .ttm => exceptOk (sp.current_user_top_tracks "medium_term" 50)
  | .ttl => exceptOk (sp.current_user_top_tracks "long_term" 50)
  | .tas => exceptOk (sp.current_user_top_artists "short_term" 50)
  | .tam => exceptOk (sp.current_user_top_artists "medium_term" 50)
  | .tal => exceptOk (sp.current_user_top_artists "long_term" 50)
  | .st => exceptOk (sp.current_user_saved_tracks 50)

/-- Whether a slot of the assembled document is populated (not `None`). -/
def slot_present (d : ExtractedData) : Slot → Bool
  | .rp => d.recently_played.isSome
  | .tts => d.top_tracks_short.isSome
  | .ttm => d.top_tracks_medium.isSome
  | .ttl => d.top_tracks_long.isSome
  | .tas => d.top_artists_short.isSome
  | .tam => d.top_artists_medium.isSome
  | .tal => d.top_artists_long.isSome
  | .st => d.saved_tracks.isSome

/-- A wall-clock timestamp as read by `datetime.now()`. -/
structure DateTime where
  year : Nat
  month : Nat
  day : Nat
  hour : Nat
  minute : Nat
  second : Nat
deriving DecidableEq

/-- Left-pad the decimal form of `n` with zeros to width `w`, as strftime
does for each conversion. -/
def padZero (w : Nat) (n : Nat) : String :=
  String.mk (List.replicate (w - (toString n).length) '0') ++ toString n

/-- `datetime.now().strftime("%Y%m%d_%H%M%S")`: year to four digits, the
other fields to two. -/
def timestamp_str (t : DateTime) : String :=
  padZero 4 t.year ++ padZero 2 t.month ++ padZero 2 t.day ++ "_" ++
    padZero 2 t.hour ++ padZero 2 t.minute ++ padZero 2 t.second

/-- What `json.dump(data, f, indent=2)` leaves in a file: the document and
the indentation width handed to the encoder.  The textual JSON rendering is
the standard library's, outside this program. -/
structure WrittenFile (α : Type) where
  doc : α
  indent : Nat
deriving DecidableEq

/-- `save_to_json` (lines 135-144): derive the filename from the wall clock
when none is given, then write the document with `indent=2`, replacing any
previous content at that path (`open(filename, 'w')`).  The filesystem is a
map from path to content; `now` is the timestamp `datetime.now()` returns. -/
def save_to_json (fs : String → Option (WrittenFile α)) (data : α)
    (filename : Option String) (now : DateTime) : String → Option (WrittenFile α) :=
  let fname := match filename with
    | none => "spotify_data_" ++ timestamp_str now ++ ".json"
    | some f => f
  fun p => if p = fname then some ⟨data, 2⟩ else fs p

/-- The `__main__` block (lines 148-165): probe with `limit=5`; if the probe
returned a payload, format the sample line from `items[0].track` (an empty
`items` or `artists` sequence raises an uncaught IndexError, modelled as
`Except.error`); otherwise report the connection failure.  The full
extraction is commented out in the source and absent here. -/
def main_run (sp : SpClient) : Except String (List String) :=
  match get_recently_played sp 5 with
  | some recent =>
    match recent.items with
    | [] => .error "IndexError: list index out of range"
    | item :: _ =>
      match item.track.artists with
      | [] => .error "IndexError: list index out of range"
      | artist :: _ =>
        .ok ["Sample track: " ++ item.track.name ++ " by " ++ artist.name,
             "Spotify connection working"]
  | none => .ok ["Connection failed - check your credentials"]

/-! ### Properties of the batch chunking -/

theorem chunks100_cons {α : Type} (l : List α) (h : l ≠ []) :
    chunks100 l = l.take 100 :: chunks100 (l.drop 100) := by
  have hn : 0 < l.length := List.length_pos.mpr h
  have hq : num_chunks l.length = num_chunks (l.length - 100) + 1 := by
    simp only [num_chunks]; omega
  simp only [chunks100, List.length_drop, hq, List.range_succ_eq_map,
    List.map_cons, List.map_map, List.cons.injEq]
  refine ⟨by simp, ?_⟩
  apply List.map_congr_left
  intro k _
  simp [Function.comp, Nat.succ_eq_add_one, Nat.mul_succ, Nat.add_comm]

theorem chunks100_length {α : Type} (l : List α) :
    (chunks100 l).length = num_chunks l.length := by
  simp [chunks100]

theorem chunks100_flatten {α : Type} (l : List α) : (chunks100 l).flatten = l := by
  generalize hn : l.length = n
  induction n using Nat.strong_induction_on generalizing l with
  | _ n ih =>
    rcases eq_or_ne l [] with rfl | h
    · simp [chunks100, num_chunks]
    · have hpos : 0 < l.length := List.length_pos.mpr h
      have hlt : (l.drop 100).length < n := by
        rw [List.length_drop]; omega
      rw [chunks100_cons l h, List.flatten_cons, ih _ hlt (l.drop 100) rfl,
        List.take_append_drop]

theorem chunks100_mem {α : Type} {l b : List α} (hb : b ∈ chunks100 l) :
    b ≠ [] ∧ b.length ≤ 100 := by
  simp only [chunks100, List.mem_map, List.mem_range] at hb
  obtain ⟨k, hk, rfl⟩ := hb
  have h1 : 100 * k < l.length := by simp only [num_chunks] at hk; omega
  constructor
  · apply List.ne_nil_of_length_pos
    simp only [List.length_take, List.length_drop]
    omega
  · simp [List.length_take]

/-! ### Properties of the feature loop -/

theorem feature_loop_ok (sp : SpClient) (bs : List (List String))
    (h : ∀ b ∈ bs, exceptOk (sp.audio_features b) = true) :
    feature_loop sp bs = (bs, .ok ((bs.map (batchRecords sp)).flatten)) := by
  induction bs with
  | nil => simp [feature_loop]
  | cons b bs ih =>
    have hb := h b (List.mem_cons_self b bs)
    obtain ⟨v, hv⟩ : ∃ v, sp.audio_features b = .ok v := by
      cases hev : sp.audio_features b with
      | ok v => exact ⟨v, rfl⟩
      | error e => rw [hev] at hb; simp [exceptOk] at hb
    have ih2 := ih (fun c hc => h c (List.mem_cons_of_mem _ hc))
    simp [feature_loop, hv, batchRecords, ih2]

theorem feature_loop_error (sp : SpClient) (pre : List (List String)) (b : List String)
    (post : List (List String)) (e : String)
    (hpre : ∀ c ∈ pre, exceptOk (sp.audio_features c) = true)
    (hb : sp.audio_features b = .error e) :
    (feature_loop sp (pre ++ b :: post)).2 = .error e := by
  induction pre with
  | nil => simp [feature_loop, hb]
  | cons c cs ih =>
    have hc := hpre c (List.mem_cons_self c cs)
    obtain ⟨v, hv⟩ : ∃ v, sp.audio_features c = .ok v := by
      cases hev : sp.audio_features c with
      | ok v => exact ⟨v, rfl⟩
      | error e2 => rw [hev] at hc; simp [exceptOk] at hc
    have ih2 := ih (fun d hd => hpre d (List.mem_cons_of_mem _ hd))
    simp only [List.cons_append, feature_loop, hv, List.append_eq]
    rw [ih2]

theorem feature_loop_calls_error (sp : SpClient) (bs : List (List String))
    (b : List String) (e : String)
    (hmem : b ∈ (feature_loop sp bs).1) (hb : sp.audio_features b = .error e) :
    ∃ e2, (feature_loop sp bs).2 = .error e2 := by
  induction bs with
  | nil => simp [feature_loop] at hmem
  | cons c cs ih =>
    cases hc : sp.audio_features c with
    | error e2 => exact ⟨e2, by simp [feature_loop, hc]⟩
    | ok v =>
      simp only [feature_loop, hc, List.mem_cons] at hmem
      rcases hmem with rfl | hmem
      · rw [hc] at hb; cases hb
      · obtain ⟨e2, he2⟩ := ih hmem
        refine ⟨e2, ?_⟩
        simp only [feature_loop, hc]
        rw [he2]

/-! ### Claim theorems: the audio-feature batch lookup -/

/-- C1: for an input of N track identifiers whose chunk lookups all succeed,
`get_audio_features` issues exactly the ceil(N/100) consecutive chunks of
size at most 100 (which partition the input), and returns the concatenation
of the non-null records of those chunks, in order, introducing no records
beyond the chunks' own. -/
theorem get_audio_features_chunking (sp : SpClient) (track_ids : List String)
    (h : ∀ b ∈ chunks100 track_ids, exceptOk (sp.audio_features b) = true) :
    audio_feature_calls sp track_ids = chunks100 track_ids ∧
    (audio_feature_calls sp track_ids).length = (track_ids.length + 99) / 100 ∧
    (chunks100 track_ids).flatten = track_ids ∧
    (∀ b ∈ chunks100 track_ids, b ≠ [] ∧ b.length ≤ 100) ∧
    get_audio_features sp track_ids =
      ((chunks100 track_ids).map (batchRecords sp)).flatten := by
  have hl := feature_loop_ok sp (chunks100 track_ids) h
  refine ⟨?_, ?_, chunks100_flatten track_ids, fun b hb => chunks100_mem hb, ?_⟩
  · simp [audio_feature_calls, hl]
  · simp [audio_feature_calls, hl, chunks100_length, num_chunks]
  · simp [get_audio_features, hl]

/-- A client whose batch lookup resolves every identifier, used to witness
the chunking claim at a concrete input. -/
def okClient : SpClient :=
  { current_user_recently_played := fun _ => .ok ⟨[]⟩
    current_user_top_tracks := fun _ _ => .ok ⟨[]⟩
    current_user_top_artists := fun _ _ => .ok ⟨[]⟩
    current_user_saved_tracks := fun _ => .ok ⟨[]⟩
    audio_features := fun batch => .ok (batch.map (fun i => some ⟨i⟩)) }

/-- Witness for C1 at a concrete two-identifier input. -/
theorem get_audio_features_chunking_witness :
    audio_feature_calls okClient ["x", "y"] = [["x", "y"]] ∧
    get_audio_features okClient ["x", "y"] = [⟨"x"⟩, ⟨"y"⟩] := by
  have h := get_audio_features_chunking okClient ["x", "y"] (by decide)
  constructor
  · rw [h.1]; decide
  · rw [h.2.2.2.2]; decide

/-- C3: on the empty identifier list `get_audio_features` returns the empty
sequence (it is total, so no error can escape, and its result type is a list,
so no absence value can be returned) and issues no client call at all. -/
theorem get_audio_features_empty (sp : SpClient) :
    get_audio_features sp [] = [] ∧ audio_feature_calls sp [] = [] :=
  ⟨rfl, rfl⟩

/-- C9: when the chunk list splits as `pre ++ b :: post` with every chunk of
the non-empty prefix `pre` succeeding and chunk `b` failing, the records
already accumulated from `pre` are discarded and the whole call returns the
empty list, never a partial result. -/
theorem get_audio_features_no_partial (sp : SpClient) (track_ids : List String)
    (pre : List (List String)) (b : List String) (post : List (List String))
    (e : String)
    (hsplit : chunks100 track_ids = pre ++ b :: post)
    (hpre : ∀ c ∈ pre, exceptOk (sp.audio_features c) = true)
    (hb : sp.audio_features b = .error e)
    (_hne : pre ≠ []) :
    get_audio_features sp track_ids = [] := by
  have herr := feature_loop_error sp pre b post e hpre hb
  rw [get_audio_features, hsplit, herr]

/-- A client that resolves full batches of 100 but fails on the final short
batch, together with a 101-identifier input: the first chunk succeeds, the
second raises. -/
def shortBatchFailClient : SpClient :=
  { current_user_recently_played := fun _ => .ok ⟨[]⟩
    current_user_top_tracks := fun _ _ => .ok ⟨[]⟩
    current_user_top_artists := fun _ _ => .ok ⟨[]⟩
    current_user_saved_tracks := fun _ => .ok ⟨[]⟩
    audio_features := fun batch =>
      if batch.length = 100 then .ok (batch.map (fun i => some ⟨i⟩))
      else .error "rate limited" }

/-- 101 distinct identifiers, so that the lookup needs two chunks. -/
def ids101 : List String := (List.range 101).map (fun n => "t" ++ toString n)

/-- Witness for C9: with 101 identifiers, a successful first chunk and a
failing second chunk, the call returns the empty list. -/
theorem get_audio_features_no_partial_witness :
    get_audio_features shortBatchFailClient ids101 = [] :=
  get_audio_features_no_partial shortBatchFailClient ids101
    [(List.range 100).map (fun n => "t" ++ toString n)] ["t100"] [] "rate limited"
    (by decide) (by decide) rfl (by decide)

/-- C5: each of the four single retrieval operations converts a raising
client call into `None` (never propagating it: the operations are total
functions into `Option`), while `get_audio_features` converts a raising
batch call that it actually issued into the empty list instead. -/
theorem operations_catch_failures (sp : SpClient) :
    (∀ limit e, sp.current_user_recently_played limit = .error e →
      get_recently_played sp limit = none) ∧
    (∀ tr limit e, sp.current_user_top_tracks tr limit = .error e →
      get_top_tracks sp tr limit = none) ∧
    (∀ tr limit e, sp.current_user_top_artists tr limit = .error e →
      get_top_artists sp tr limit = none) ∧
    (∀ limit e, sp.current_user_saved_tracks limit = .error e →
      get_saved_tracks sp limit = none) ∧
    (∀ track_ids b e, b ∈ audio_feature_calls sp track_ids →
      sp.audio_features b = .error e → get_audio_features sp track_ids = []) := by
  refine ⟨?_, ?_, ?_, ?_, ?_⟩
  · intro limit e h; simp [get_recently_played, h]
  · intro tr limit e h; simp [get_top_tracks, h]
  · intro tr limit e h; simp [get_top_artists, h]
  · intro limit e h; simp [get_saved_tracks, h]
  · intro track_ids b e hmem hb
    obtain ⟨e2, he2⟩ :=
      feature_loop_calls_error sp (chunks100 track_ids) b e hmem hb
    rw [get_audio_features, he2]

/-- A client on which every call raises. -/
def failClient : SpClient :=
  { current_user_recently_played := fun _ => .error "connection refused"
    current_user_top_tracks := fun _ _ => .error "connection refused"
    current_user_top_artists := fun _ _ => .error "connection refused"
    current_user_saved_tracks := fun _ => .error "connection refused"
    audio_features := fun _ => .error "connection refused" }

/-- Witness for C5 on the always-failing client. -/
theorem operations_catch_failures_witness :
    get_recently_played failClient 50 = none ∧
    get_top_tracks failClient "short_term" 50 = none ∧
    get_top_artists failClient "short_term" 50 = none ∧
    get_saved_tracks failClient 50 = none ∧
    get_audio_features failClient ["x"] = [] := by
  obtain ⟨h1, h2, h3, h4, h5⟩ := operations_catch_failures failClient
  exact ⟨h1 50 "connection refused" rfl, h2 "short_term" 50 "connection refused" rfl,
    h3 "short_term" 50 "connection refused" rfl, h4 50 "connection refused" rfl,
    h5 ["x"] ["x"] "connection refused" (by decide) rfl⟩

/-! ### Properties of the working identifier set -/

theorem foldl_addId_toFinset (l : List String) (s : List String) :
    (l.foldl addId s).toFinset = s.toFinset ∪ l.toFinset := by
  induction l generalizing s with
  | nil => simp
  | cons x xs ih =>
    simp only [List.foldl_cons, ih, addId]
    by_cases hx : x ∈ s
    · simp only [if_pos hx, List.toFinset_cons]
      ext a
      simp only [Finset.mem_union, List.mem_toFinset, Finset.mem_insert]
      constructor
      · rintro (ha | ha)
        · exact Or.inl ha
        · exact Or.inr (Or.inr ha)
      · rintro (ha | rfl | ha)
        · exact Or.inl ha
        · exact Or.inl hx
        · exact Or.inr ha
    · simp only [if_neg hx, List.toFinset_append, List.toFinset_cons]
      ext a
      simp only [Finset.mem_union, List.mem_toFinset, Finset.mem_insert,
        List.mem_singleton]
      tauto

theorem foldl_addId_nodup (l : List String) (s : List String) (hs : s.Nodup) :
    (l.foldl addId s).Nodup := by
  induction l generalizing s with
  | nil => exact hs
  | cons x xs ih =>
    simp only [List.foldl_cons]
    apply ih
    by_cases hx : x ∈ s
    · simpa [addId, hx] using hs
    · simp only [addId, if_neg hx]
      exact List.Nodup.append hs (List.nodup_singleton x)
        (by simpa [List.disjoint_singleton] using hx)

theorem foldl_addId_card (l : List String) :
    (l.foldl addId []).length = l.toFinset.card := by
  have hnd : (l.foldl addId []).Nodup := foldl_addId_nodup l [] List.nodup_nil
  have hfs : (l.foldl addId []).toFinset = l.toFinset := by
    rw [foldl_addId_toFinset]; simp
  rw [← hfs, List.toFinset_card_of_nodup hnd]

theorem toFinset_card_eq_length_iff (l : List String) :
    l.toFinset.card = l.length ↔ l.Nodup := by
  rw [List.card_toFinset]
  constructor
  · intro h
    exact List.dedup_eq_self.mp (List.Sublist.eq_of_length (List.dedup_sublist l) h)
  · intro h
    rw [List.dedup_eq_self.mpr h]

/-- The five contributing scans of `extract_all_data` are one left fold of
the set insertion over the concatenated identifier lists. -/
theorem collect_track_ids_eq_foldl (rp : Option (Payload TrackWrap))
    (tts ttm ttl : Option (Payload TrackObj)) (st : Option (Payload TrackWrap)) :
    collect_track_ids rp tts ttm ttl st =
      (wrapIds rp ++ topIds tts ++ topIds ttm ++ topIds ttl ++ wrapIds st).foldl
        addId [] := by
  cases rp <;> cases tts <;> cases ttm <;> cases ttl <;> cases st <;>
    simp [collect_track_ids, wrapIds, topIds, List.foldl_append, List.foldl_map]

/-! ### Claim theorems: the track-identifier set -/

/-- C2: the identifier set `extract_all_data` builds and hands to
`get_audio_features` is exactly the union of the identifiers of the
recently-played result, the three top-tracks results and the saved-tracks
result (each contributing only when present), and it is unchanged under any
replacement of the top-artists client call, so it never draws on the three
top-artists results. -/
theorem track_id_set_is_union (sp : SpClient) :
    (extract_track_ids sp).toFinset =
      (wrapIds (get_recently_played sp 50)).toFinset ∪
        (topIds (get_top_tracks sp "short_term" 50)).toFinset ∪
        (topIds (get_top_tracks sp "medium_term" 50)).toFinset ∪
        (topIds (get_top_tracks sp "long_term" 50)).toFinset ∪
        (wrapIds (get_saved_tracks sp 50)).toFinset ∧
    (∀ g, extract_track_ids
        { sp with current_user_top_artists := g } = extract_track_ids sp) ∧
    (extract_all_data sp).audio_features =
      get_audio_features sp (extract_track_ids sp) := by
  refine ⟨?_, fun g => rfl, rfl⟩
  rw [extract_track_ids, collect_track_ids_eq_foldl, foldl_addId_toFinset]
  simp [List.toFinset_append, Finset.union_assoc]

/-- A recently-played or saved-tracks payload holding the given track
identifiers. -/
def wrapPayload (ids : List String) : Payload TrackWrap :=
  ⟨ids.map (fun i => TrackWrap.mk ⟨i, "name", []⟩)⟩

/-- A top-tracks payload holding the given track identifiers. -/
def topPayload (ids : List String) : Payload TrackObj :=
  ⟨ids.map (fun i => ⟨i, "name", []⟩)⟩

/-- The mocked client of the end-to-end scenario: recently played gives
identifiers a, b, c; every top-tracks period gives b, c, d; saved tracks
gives c, e; and the top-artists behaviour is an arbitrary `g`. -/
def scenarioClient (g : String → Nat → Except String (Payload ArtistObj)) :
    SpClient :=
  { current_user_recently_played := fun _ => .ok (wrapPayload ["a", "b", "c"])
    current_user_top_tracks := fun _ _ => .ok (topPayload ["b", "c", "d"])
    current_user_top_artists := g
    current_user_saved_tracks := fun _ => .ok (wrapPayload ["c", "e"])
    audio_features := fun batch => .ok (batch.map (fun i => some ⟨i⟩)) }

set_option maxHeartbeats 1600000 in
/-- C6: on the mocked scenario client, whatever the top-artists behaviour,
the identifier set passed to the audio-feature lookup is exactly
the set of a, b, c, d, e, of size 5. -/
theorem scenario_track_id_set (g : String → Nat → Except String (Payload ArtistObj)) :
    (extract_track_ids (scenarioClient g)).toFinset =
      {"a", "b", "c", "d", "e"} ∧
    (extract_track_ids (scenarioClient g)).toFinset.card = 5 ∧
    (extract_track_ids (scenarioClient g)).length = 5 := by
  have h : extract_track_ids (scenarioClient g) = ["a", "b", "c", "d", "e"] := rfl
  rw [h]
  refine ⟨by decide, by decide, by decide⟩

theorem wrapIds_length (o : Option (Payload TrackWrap)) :
    (wrapIds o).length = itemCount o := by
  cases o <;> simp [wrapIds, itemCount]

theorem topIds_length (o : Option (Payload TrackObj)) :
    (topIds o).length = itemCount o := by
  cases o <;> simp [topIds, itemCount]

/-- C7: the identifier set is never larger than the total number of items of
the contributing retrieval results, and reaches that total exactly when no
identifier occurs twice across the contributed scans. -/
theorem track_id_set_dedup_bound (sp : SpClient) :
    (extract_track_ids sp).length ≤
      itemCount (get_recently_played sp 50) +
        itemCount (get_top_tracks sp "short_term" 50) +
        itemCount (get_top_tracks sp "medium_term" 50) +
        itemCount (get_top_tracks sp "long_term" 50) +
        itemCount (get_saved_tracks sp 50) ∧
    ((extract_track_ids sp).length =
        itemCount (get_recently_played sp 50) +
          itemCount (get_top_tracks sp "short_term" 50) +
          itemCount (get_top_tracks sp "medium_term" 50) +
          itemCount (get_top_tracks sp "long_term" 50) +
          itemCount (get_saved_tracks sp 50) ↔
      (contributed_ids sp).Nodup) := by
  have hid : extract_track_ids sp = (contributed_ids sp).foldl addId [] :=
    collect_track_ids_eq_foldl _ _ _ _ _
  have hlen : (contributed_ids sp).length =
      itemCount (get_recently_played sp 50) +
        itemCount (get_top_tracks sp "short_term" 50) +
        itemCount (get_top_tracks sp "medium_term" 50) +
        itemCount (get_top_tracks sp "long_term" 50) +
        itemCount (get_saved_tracks sp 50) := by
    simp only [contributed_ids, List.length_append, wrapIds_length, topIds_length]
  rw [hid, ← hlen, foldl_addId_card]
  exact ⟨List.toFinset_card_le _, toFinset_card_eq_length_iff _⟩

/-! ### Claim theorems: best-effort assembly -/

/-- Each slot of the assembled document is populated exactly when the
underlying client call backing it succeeded. -/
theorem slot_present_extract (sp : SpClient) (s : Slot) :
    slot_present (extract_all_data sp) s = slot_call_ok sp s := by
  cases s <;>
    simp only [slot_present, slot_call_ok, extract_all_data, get_recently_played,
      get_top_tracks, get_top_artists, get_saved_tracks]
  · cases sp.current_user_recently_played 50 <;> simp [exceptOk]
  · cases sp.current_user_top_tracks "short_term" 50 <;> simp [exceptOk]
  · cases sp.current_user_top_tracks "medium_term" 50 <;> simp [exceptOk]
  · cases sp.current_user_top_tracks "long_term" 50 <;> simp [exceptOk]
  · cases sp.current_user_top_artists "short_term" 50 <;> simp [exceptOk]
  · cases sp.current_user_top_artists "medium_term" 50 <;> simp [exceptOk]
  · cases sp.current_user_top_artists "long_term" 50 <;> simp [exceptOk]
  · cases sp.current_user_saved_tracks 50 <;> simp [exceptOk]

/-- C4: when exactly one of the eight retrieval calls fails and the seven
others succeed, the assembled document (which by construction always carries
all eight category slots, extraction never aborting) has `None` exactly in
the failed slot and a populated payload in every other slot. -/
theorem extract_all_data_best_effort (sp : SpClient) (s : Slot)
    (hfail : slot_call_ok sp s = false)
    (hrest : ∀ s2 : Slot, s2 ≠ s → slot_call_ok sp s2 = true) :
    slot_present (extract_all_data sp) s = false ∧
    ∀ s2 : Slot, s2 ≠ s → slot_present (extract_all_data sp) s2 = true := by
  refine ⟨?_, fun s2 h2 => ?_⟩
  · rw [slot_present_extract]; exact hfail
  · rw [slot_present_extract]; exact hrest s2 h2

/-- A client on which only the recently-played call fails. -/
def oneFailClient : SpClient :=
  { current_user_recently_played := fun _ => .error "HTTP 500"
    current_user_top_tracks := fun _ _ => .ok ⟨[]⟩
    current_user_top_artists := fun _ _ => .ok ⟨[]⟩
    current_user_saved_tracks := fun _ => .ok ⟨[]⟩
    audio_features := fun batch => .ok (batch.map (fun i => some ⟨i⟩)) }

/-- Witness for C4: with only the recently-played call failing, the document
keeps every other slot populated and that one absent. -/
theorem extract_all_data_best_effort_witness :
    slot_present (extract_all_data oneFailClient) Slot.rp = false ∧
    ∀ s2 : Slot, s2 ≠ Slot.rp →
      slot_present (extract_all_data oneFailClient) s2 = true :=
  extract_all_data_best_effort oneFailClient Slot.rp (by decide) (by decide)

/-! ### Claim theorems: serialization -/

/-- C8: with no destination given, `save_to_json` writes the document, with
indentation width 2, under the name built from the constant prefix, the
zero-padded year, month and day, an underscore, the zero-padded hour, minute
and second, and the constant suffix, replacing whatever the filesystem held
at that path; every other path is untouched. -/
theorem save_to_json_default_name {α : Type} (fs : String → Option (WrittenFile α))
    (data : α) (t : DateTime) :
    save_to_json fs data none t
        ("spotify_data_" ++
          (padZero 4 t.year ++ padZero 2 t.month ++ padZero 2 t.day ++ "_" ++
            padZero 2 t.hour ++ padZero 2 t.minute ++ padZero 2 t.second) ++
          ".json") = some ⟨data, 2⟩ ∧
    ∀ p, p ≠ "spotify_data_" ++
          (padZero 4 t.year ++ padZero 2 t.month ++ padZero 2 t.day ++ "_" ++
            padZero 2 t.hour ++ padZero 2 t.minute ++ padZero 2 t.second) ++
          ".json" →
      save_to_json fs data none t p = fs p := by
  constructor
  · simp [save_to_json, timestamp_str]
  · intro p hp
    simp only [save_to_json, timestamp_str]
    rw [if_neg hp]

/-- Witness for C8 at a concrete timestamp over a one-file filesystem: the
derived name is the compact timestamp pattern, the old content at that path
is replaced, and other paths keep their content. -/
theorem save_to_json_default_name_witness :
    save_to_json
        (fun p => if p = "spotify_data_20260102_030405.json" then
          some ⟨0, 4⟩ else none)
        (7 : Nat) none ⟨2026, 1, 2, 3, 4, 5⟩
        "spotify_data_20260102_030405.json" = some ⟨7, 2⟩ ∧
    save_to_json
        (fun p => if p = "spotify_data_20260102_030405.json" then
          some ⟨0, 4⟩ else none)
        (7 : Nat) none ⟨2026, 1, 2, 3, 4, 5⟩ "other.json" = none := by
  have h := save_to_json_default_name
    (fun p => if p = "spotify_data_20260102_030405.json" then
      some (⟨0, 4⟩ : WrittenFile Nat) else none)
    (7 : Nat) ⟨2026, 1, 2, 3, 4, 5⟩
  have hname : "spotify_data_" ++
      (padZero 4 (2026 : Nat) ++ padZero 2 (1 : Nat) ++ padZero 2 (2 : Nat) ++ "_" ++
        padZero 2 (3 : Nat) ++ padZero 2 (4 : Nat) ++ padZero 2 (5 : Nat)) ++
      ".json" = "spotify_data_20260102_030405.json" := by decide
  constructor
  · have h1 := h.1
    rw [hname] at h1
    exact h1
  · have h2 := h.2 "other.json" (by rw [hname]; decide)
    rw [h2]
    decide

/-! ### Claim theorems: the process entry point -/

/-- C10: if the probe call returns a payload whose `items` sequence is
empty, the entry point hits the unguarded `items[0]` access and fails with
an index error instead of printing the success message; conversely the
success message is only ever printed when the probe returned at least one
item. -/
theorem main_probe_index_error :
    (∀ (sp : SpClient) (r : Payload TrackWrap),
      sp.current_user_recently_played 5 = .ok r → r.items = [] →
      main_run sp = .error "IndexError: list index out of range") ∧
    (∀ (sp : SpClient) (msgs : List String),
      main_run sp = .ok msgs → "Spotify connection working" ∈ msgs →
      ∃ r, sp.current_user_recently_played 5 = .ok r ∧ r.items ≠ []) := by
  constructor
  · intro sp r hok hempty
    simp [main_run, get_recently_played, hok, hempty]
  · intro sp msgs hok hmem
    cases hrp : sp.current_user_recently_played 5 with
    | error e =>
      simp only [main_run, get_recently_played, hrp] at hok
      cases hok
      simp at hmem
    | ok r =>
      refine ⟨r, rfl, fun hempty => ?_⟩
      simp [main_run, get_recently_played, hrp, hempty] at hok

/-- A client whose probe succeeds with an empty item list. -/
def emptyProbeClient : SpClient :=
  { current_user_recently_played := fun _ => .ok ⟨[]⟩
    current_user_top_tracks := fun _ _ => .error "unused"
    current_user_top_artists := fun _ _ => .error "unused"
    current_user_saved_tracks := fun _ => .error "unused"
    audio_features := fun _ => .error "unused" }

/-- Witness for C10: the empty successful probe makes the entry point fail
with the index error. -/
theorem main_probe_index_error_witness :
    main_run emptyProbeClient = .error "IndexError: list index out of range" :=
  main_probe_index_error.1 emptyProbeClient ⟨[]⟩ rfl rfl

end SpotifyPort
